import Mathlib

/-!
Shallow embedding of the `Res` result algebra of the pythonix repository
(`src/pythonix/internals/res.py`), together with the alternative drafts it
ships (`internals/choices.py`, `internals/choice_experiment.py`), and proofs
of the specification claims about it.

Python runtime values that the library inspects are modelled by the inductive
`Value`; raised exceptions are modelled by `Except Exc` results, where `Exc`
carries the exception class and its message.  Exception instances compare by
identity in Python; the model uses structural equality, which agrees with
identity on every equation proved here (each asserted equality reuses the very
payload object the code reuses).  The `str()` rendering of values that only
feeds exception message text is approximated by `Value.pyStr` (container
contents are elided except for the empty list, which is rendered exactly).
-/

namespace Pythonix

/-- Exception classes that occur in the embedded code.  CPython's intermediate
bases (e.g. `LookupError` between `KeyError` and `Exception`) are collapsed:
every class is a direct child of `exceptionBase`, which is faithful for the
`isinstance` checks the library performs. -/
inductive ExcType where
  | unwrapError
  | expectError
  | nilError
  | typeError
  | valueError
  | keyError
  | exceptionBase
deriving DecidableEq, Repr

/-- `issubclass` for the collapsed hierarchy. -/
def ExcType.isSubclassOf (a b : ExcType) : Bool :=
  a = b || b = .exceptionBase

/-- An exception instance: its class and its message text. -/
structure Exc where
  ty : ExcType
  msg : String
deriving DecidableEq, Repr

/-- `isinstance(e, t)` for exception instances. -/
def Exc.isInstance (e : Exc) (t : ExcType) : Bool :=
  e.ty.isSubclassOf t

/-- Python values the `Res` library inspects: scalars, `None`, exception
instances, the three container kinds its `__iter__` special-cases, and `Res`
objects themselves (a mapper may return a `Res`, which `map` detects with
`isinstance(out, Res)`).  A `Res` value is its `inner` field and `_is_ok`
flag. -/
inductive Value where
  | vint : Int → Value
  | vstr : String → Value
  | vnone : Value
  | vexc : Exc → Value
  | vlist : List Value → Value
  | vtup : List Value → Value
  | vset : List Value → Value
  | vres : Value → Bool → Value

/-- `isinstance(v, Exception)`. -/
def Value.isExc : Value → Bool
  | .vexc _ => true
  | _ => false

/-- Approximation of CPython `str(v)` used only inside exception message
text.  Container contents are elided, except the empty list which renders
exactly as CPython does. -/
def Value.pyStr : Value → String
  | .vint n => toString n
  | .vstr s => s
  | .vnone => "None"
  | .vexc e => e.msg
  | .vlist [] => "[]"
  | .vlist _ => "[...]"
  | .vtup _ => "(...)"
  | .vset _ => "set(...)"
  | .vres _ _ => "Res(...)"

/-- The dataclass `Res` of `internals/res.py`: a frozen pair of the wrapped
value and the `_is_ok` tag. -/
structure Res where
  inner : Value
  _is_ok : Bool

/-- `Res.Ok`: rejects Exception children with `TypeError`, otherwise wraps
with the ok tag. -/
def Res.Ok (value : Value) : Except Exc Res :=
  if value.isExc then
    .error ⟨.typeError, "Cannot pass an Exception child to Ok"⟩
  else
    .ok ⟨value, true⟩

/-- `Res.Err`: rejects values that are not Exception instances with
`TypeError`, otherwise wraps with the err tag. -/
def Res.Err (value : Value) : Except Exc Res :=
  if !value.isExc then
    .error ⟨.typeError, "Expected subclass of Exception but found " ++ value.pyStr⟩
  else
    .ok ⟨value, false⟩

/-- `Res.Some`: `None` becomes `Err(Nil())`, anything else goes through
`Res.Ok` (and therefore inherits its `TypeError` rejection of Exceptions). -/
def Res.Some (value : Value) : Except Exc Res :=
  match value with
  | .vnone => Res.Err (.vexc ⟨.nilError, "Found None while expecting something"⟩)
  | v => Res.Ok v

/-- `Res.unwrap`: the ok payload when ok-tagged and not an Exception;
otherwise re-raises the wrapped Exception itself; the remaining (unreachable
through the constructors) shape raises `ValueError("Unreachable")`. -/
def Res.unwrap (r : Res) : Except Exc Value :=
  if r._is_ok && !r.inner.isExc then .ok r.inner
  else
    match r.inner with
    | .vexc e => .error e
    | _ => .error ⟨.valueError, "Unreachable"⟩

/-- `Res.unwrap_alt`: the payload when err-tagged, else `UnwrapError`. -/
def Res.unwrap_alt (r : Res) : Except Exc Value :=
  if !r._is_ok then .ok r.inner
  else .error ⟨.unwrapError, "Unwrapped Err while in Ok state"⟩

/-- Module-level `unwrap_err` helper: delegates to `unwrap_alt`. -/
def unwrap_err (subj : Res) : Except Exc Value :=
  subj.unwrap_alt

/-- `Res.expect`. -/
def Res.expect (r : Res) (message : String) : Except Exc Value :=
  if !r._is_ok then .error ⟨.expectError, message⟩
  else .ok r.inner

/-- `Res.expect_err`. -/
def Res.expect_err (r : Res) (message : String) : Except Exc Value :=
  if !r._is_ok then .ok r.inner
  else .error ⟨.expectError, message⟩

/-- `Res.__iter__`: err-tagged Exceptions iterate to nothing; a list, tuple
or set payload iterates to its elements; anything else iterates to itself
once.  (The `Colladic` protocol case of the source matches none of the value
shapes modelled here: none of them provide `fold`/`where`.) -/
def Res.iter (r : Res) : List Value :=
  if !r._is_ok && r.inner.isExc then []
  else
    match r.inner with
    | .vlist data => data
    | .vtup data => data
    | .vset data => data
    | x => [x]

/-- A Python function argument of `map`/`map_alt`: the library inspects its
signature for the parameter count and dispatches on it, so the model carries
the arity together with the zero-argument and one-argument behaviours.  A
call may itself raise. -/
structure PyFun where
  arity : Nat
  call0 : Except Exc Value
  call1 : Value → Except Exc Value

/-- The `ValueError` both `map` and `map_alt` raise on arity above one. -/
def arityValueError : Exc :=
  ⟨.valueError, "Invalid func type. Must only contain 1 or 0 parameters."⟩

/-- The arity dispatch shared by `map` and `map_alt`. -/
def PyFun.dispatch (f : PyFun) (v : Value) : Except Exc Value :=
  if f.arity = 1 then f.call1 v
  else if f.arity = 0 then f.call0
  else .error arityValueError

/-- The loop body shared by one `map` iteration: dispatch the call, return a
`Res` result directly (`isinstance(out, Res)`), send a plain result through
`Res.Ok`. -/
def mapOkStep (f : PyFun) (v : Value) : Except Exc Res :=
  match f.dispatch v with
  | .error e => .error e
  | .ok out =>
    match out with
    | .vres i b => .ok ⟨i, b⟩
    | u => Res.Ok u

/-- The err-side body of `map_alt`: dispatch the call, return a `Res` result
directly, send a plain result through `Res.Err`. -/
def mapAltStep (f : PyFun) (v : Value) : Except Exc Res :=
  match f.dispatch v with
  | .error e => .error e
  | .ok out =>
    match out with
    | .vres i b => .ok ⟨i, b⟩
    | u => Res.Err u

/-- `Res.map`.  The source runs `for ok in self:` and returns from the first
iteration: the callback therefore receives the first element of `iter`, and
when the iteration is empty (err-tagged, or an ok-tagged empty
list/tuple/set) the inner value is passed to `Res.Err`. -/
def Res.map (r : Res) (f : PyFun) : Except Exc Res :=
  match r.iter with
  | ok :: _ => mapOkStep f ok
  | [] => Res.Err r.inner

/-- `Res.map_alt`: dispatches on the err side only; the ok side is re-wrapped
through `Res.Ok`. -/
def Res.map_alt (r : Res) (f : PyFun) : Except Exc Res :=
  if !r._is_ok then mapAltStep f r.inner
  else Res.Ok r.inner

/-- `Res.convert_err`: err side is re-created as `err_type(str(e))`, ok side
re-wrapped through `Res.Ok`. -/
def Res.convert_err (r : Res) (err_type : ExcType) : Except Exc Res :=
  if !r._is_ok then Res.Err (.vexc ⟨err_type, r.inner.pyStr⟩)
  else Res.Ok r.inner

/-- `Res.do`: runs `map` for its effect and returns `self`; named `do_` here
because `do` is a Lean keyword. -/
def Res.do_ (r : Res) (f : PyFun) : Except Exc Res :=
  match r.map f with
  | .error e => .error e
  | .ok _ => .ok r

/-- `Res.do_err`: on the err side the source calls the function inside
`try ... finally: return Res.Err(err)`; the `return` in the `finally` block
swallows every exception the calls may raise, so the result does not depend
on the function at all. -/
def Res.do_err (r : Res) (_f : PyFun) : Except Exc Res :=
  if !r._is_ok then Res.Err r.inner
  else Res.Ok r.inner

/-- The `ResDict` typed dictionary of `internals/res.py`; the unpopulated
slot holds `None` (`vnone`). -/
structure ResDict where
  ok : Value
  err : Value
  is_ok : Bool

/-- `Res.to_dict`. -/
def Res.to_dict (r : Res) : ResDict :=
  if !r._is_ok then ⟨.vnone, r.inner, false⟩
  else ⟨r.inner, .vnone, true⟩

/-- `Res.from_dict`: dispatches on `is_ok`; a `None` in the selected slot
raises `Nil()`, otherwise the slot goes back through the validating
constructor of the matching tag. -/
def Res.from_dict (d : ResDict) : Except Exc Res :=
  match d.is_ok with
  | false =>
    match d.err with
    | .vnone => .error ⟨.nilError, "Found None while expecting something"⟩
    | e => Res.Err e
  | true =>
    match d.ok with
    | .vnone => .error ⟨.nilError, "Found None while expecting something"⟩
    | v => Res.Ok v

/-- The body of the `try` block inside the wrapper that `safe` builds: call
the wrapped function, then wrap the returned value with `Res.Ok` (the `Ok`
construction happens inside the `try`, so its `TypeError` is also subject to
the `except` clause). -/
def safeTryBody {α : Type} (g : α → Except Exc Value) (a : α) : Except Exc Res :=
  match g a with
  | .ok u => Res.Ok u
  | .error e => .error e

/-- The `safe(*err_type)` decorator applied to a function and an argument:
exceptions escaping the `try` block that match one of the listed classes are
captured as `Res.Err(e)`; every other exception propagates. -/
def safe {α : Type} (err_type : List ExcType) (g : α → Except Exc Value) (a : α) :
    Except Exc Res :=
  match safeTryBody g a with
  | .ok r => .ok r
  | .error e =>
    if err_type.any (fun t => e.isInstance t) then Res.Err (.vexc e)
    else .error e

/-! ### The `internals/choices.py` draft

`BaseChoice` is a frozen dataclass with `order=True`; `Left`/`Right` and
their children `Ok`/`Err` are modelled by a class tag next to the payload.
The dataclass-generated ordering methods compare the field tuples only when
both operands have the same class and answer `NotImplemented` otherwise, which
the interpreter turns into a `TypeError`. -/

/-- The concrete class of a `choices.py` object. -/
inductive ChoiceCls where
  | leftC
  | rightC
  | okC
  | errC
deriving DecidableEq, Repr

/-- Whether the class sits on the `Left` side of the hierarchy (`Ok` is a
`Left`, `Err` is a `Right`). -/
def ChoiceCls.isLeftSide : ChoiceCls → Bool
  | .leftC | .okC => true
  | .rightC | .errC => false

/-- A `choices.py` object: its concrete class and its `inner` payload. -/
structure Choice where
  cls : ChoiceCls
  inner : Value

/-- Payload comparison, as delegated to by the dataclass tuple comparison:
ints and strings order themselves, other payload shapes raise `TypeError`
(as unorderable values do in Python). -/
def pyCmp : Value → Value → Except Exc Ordering
  | .vint a, .vint b => .ok (compare a b)
  | .vstr a, .vstr b => .ok (compare a b)
  | _, _ => .error ⟨.typeError, "comparison not supported between payload values"⟩

/-- The `TypeError` the interpreter raises when both dataclass ordering
methods answer `NotImplemented` (operands of different concrete classes). -/
def clsMismatch : Exc :=
  ⟨.typeError, "ordering not supported between instances of different classes"⟩

/-- Dataclass-generated `__lt__` as seen through the `<` operator. -/
def Choice.lt (a b : Choice) : Except Exc Bool :=
  if a.cls = b.cls then
    match pyCmp a.inner b.inner with
    | .ok o => .ok (match o with | .lt => true | _ => false)
    | .error e => .error e
  else .error clsMismatch

/-- Dataclass-generated `__le__` as seen through the `<=` operator. -/
def Choice.le (a b : Choice) : Except Exc Bool :=
  if a.cls = b.cls then
    match pyCmp a.inner b.inner with
    | .ok o => .ok (match o with | .gt => false | _ => true)
    | .error e => .error e
  else .error clsMismatch

/-- Dataclass-generated `__gt__` as seen through the `>` operator. -/
def Choice.gt (a b : Choice) : Except Exc Bool :=
  if a.cls = b.cls then
    match pyCmp a.inner b.inner with
    | .ok o => .ok (match o with | .gt => true | _ => false)
    | .error e => .error e
  else .error clsMismatch

/-- Dataclass-generated `__ge__` as seen through the `>=` operator. -/
def Choice.ge (a b : Choice) : Except Exc Bool :=
  if a.cls = b.cls then
    match pyCmp a.inner b.inner with
    | .ok o => .ok (match o with | .lt => false | _ => true)
    | .error e => .error e
  else .error clsMismatch

/-- `internals/res.py`'s `Res` dataclass is declared without `order=True`
and defines no ordering methods, so every ordering comparison between two
`Res` values raises `TypeError`; this embeds the `<` operator on them. -/
def Res.lt (_a _b : Res) : Except Exc Bool :=
  .error ⟨.typeError, "ordering not supported between instances of Res"⟩

/-- `Left.and_then` calls the operation on the payload; `Right.and_then`
(inherited by `Err`) rebuilds `self.new(self.inner)` without touching the
operation. -/
def Choice.and_then (c : Choice) (op : Value → Except Exc Choice) : Except Exc Choice :=
  if c.cls.isLeftSide then op c.inner
  else .ok ⟨c.cls, c.inner⟩

/-- `Left.or_else` (inherited by `Ok`) rebuilds `self.new(self.inner)`
without touching the operation; `Right.or_else` calls it on the payload. -/
def Choice.or_else (c : Choice) (op : Value → Except Exc Choice) : Except Exc Choice :=
  if c.cls.isLeftSide then .ok ⟨c.cls, c.inner⟩
  else op c.inner

/-! ### The `internals/choice_experiment.py` draft

Its `Res` (modelled as `CERes`) stores the payload with an `_is_err` flag.
Its two-argument classmethod `Err(value, other_type)` validates the payload;
`Ok(value, other_type)` performs no validation.  `and_then` on the err side
executes `return Res.Err(self.inner)` — one argument short of `Err`'s
signature, so the interpreter raises `TypeError` for the missing
`other_type` parameter before any body runs. -/

/-- The `choice_experiment.py` result object. -/
structure CERes where
  inner : Value
  _is_err : Bool

/-- `choice_experiment.Res.Ok(value, other_type)`: wraps without
validation (the `other_type` argument is ignored at runtime). -/
def CERes.Ok (value : Value) : CERes :=
  ⟨value, false⟩

/-- `choice_experiment.Res.Err(value, other_type)`: validates the payload. -/
def CERes.Err (value : Value) : Except Exc CERes :=
  if !value.isExc then
    .error ⟨.typeError, "Expected subclass of Exception but found " ++ value.pyStr⟩
  else .ok ⟨value, true⟩

/-- `choice_experiment.Res.and_then`: the err branch evaluates
`Res.Err(self.inner)` with the required `other_type` argument missing, which
raises `TypeError` (CPython quotes the parameter name in the message). -/
def CERes.and_then (r : CERes) (f : Value → Except Exc CERes) : Except Exc CERes :=
  if r._is_err then
    .error ⟨.typeError, "Err() missing 1 required positional argument: other_type"⟩
  else f r.inner

/-- `choice_experiment.Res.or_else`: err branch calls the function; ok
branch rebuilds `Res.Ok(self.inner, F)` (both arguments supplied there). -/
def CERes.or_else (r : CERes) (f : Value → Except Exc CERes) : Except Exc CERes :=
  if r._is_err then f r.inner
  else .ok (CERes.Ok r.inner)

/-! ### Invariant predicates -/

/-- The reachability invariant of `Res`: err-tagged values hold Exception
instances, ok-tagged values hold non-Exceptions. -/
def Res.inv (r : Res) : Prop :=
  r.inner.isExc = !r._is_ok

/-- A value a mapper may hand to `map`: either a `Res` that itself satisfies
the invariant, or a plain non-Exception value (an Exception would be rejected
by the `Res.Ok` re-wrap). -/
def okResult : Value → Prop
  | .vres i b => i.isExc = !b
  | .vexc _ => False
  | _ => True

/-- A value a mapper may hand to `map_alt` on the err side: either a `Res`
satisfying the invariant, or an Exception instance (a plain non-Exception
would be rejected by the `Res.Err` re-wrap). -/
def errResult : Value → Prop
  | .vres i b => i.isExc = !b
  | .vexc _ => True
  | _ => False

/-- A function argument whose calls always return normally, with every
returned value satisfying `P`, and whose signature has at most one
parameter. -/
def PyFun.total (f : PyFun) (P : Value → Prop) : Prop :=
  f.arity ≤ 1 ∧ (∃ u, f.call0 = .ok u ∧ P u) ∧ ∀ v, ∃ u, f.call1 v = .ok u ∧ P u

/-- A function argument all of whose `Res`-shaped results satisfy the
invariant (no constraint on plain results or on raising). -/
def PyFun.resOutputsInv (f : PyFun) : Prop :=
  (∀ i b, f.call0 = .ok (.vres i b) → Value.isExc i = !b) ∧
    ∀ v i b, f.call1 v = .ok (.vres i b) → Value.isExc i = !b

/-- A value payload that is not one of the three special-cased container
shapes (such payloads iterate as a single element). -/
def Value.isScalarPayload : Value → Bool
  | .vlist _ | .vtup _ | .vset _ => false
  | _ => true

/-! ### Helper lemmas -/

theorem Res.Ok_not_exc {v : Value} (h : v.isExc = false) :
    Res.Ok v = .ok ⟨v, true⟩ := by
  simp [Res.Ok, h]

theorem Res.Err_exc {v : Value} (h : v.isExc = true) :
    Res.Err v = .ok ⟨v, false⟩ := by
  simp [Res.Err, h]

theorem Res.Ok_success {v : Value} {r : Res} (h : Res.Ok v = .ok r) :
    v.isExc = false ∧ r = ⟨v, true⟩ := by
  cases hv : v.isExc with
  | true => rw [Res.Ok, hv] at h; simp at h
  | false => rw [Res.Ok, hv] at h; simp at h; exact ⟨rfl, h.symm⟩

theorem Res.Err_success {v : Value} {r : Res} (h : Res.Err v = .ok r) :
    v.isExc = true ∧ r = ⟨v, false⟩ := by
  cases hv : v.isExc with
  | false => rw [Res.Err, hv] at h; simp at h
  | true => rw [Res.Err, hv] at h; simp at h; exact ⟨rfl, h.symm⟩

theorem Res.Ok_success_inv {v : Value} {r : Res} (h : Res.Ok v = .ok r) : r.inv := by
  obtain ⟨hv, hr⟩ := Res.Ok_success h
  subst hr
  simp [Res.inv, hv]

theorem Res.Err_success_inv {v : Value} {r : Res} (h : Res.Err v = .ok r) : r.inv := by
  obtain ⟨hv, hr⟩ := Res.Err_success h
  subst hr
  simp [Res.inv, hv]

theorem Value.exists_exc_of_isExc {v : Value} (h : v.isExc = true) :
    ∃ e, v = .vexc e := by
  cases v <;> simp_all [Value.isExc]

theorem Res.iter_scalar {v : Value} (hs : v.isScalarPayload = true) :
    Res.iter ⟨v, true⟩ = [v] := by
  cases v <;> simp_all [Res.iter, Value.isScalarPayload]

theorem PyFun.dispatch_resInv {f : PyFun} {v : Value} {i : Value} {b : Bool}
    (hf : f.resOutputsInv) (h : f.dispatch v = .ok (.vres i b)) :
    Value.isExc i = !b := by
  unfold PyFun.dispatch at h
  by_cases h1 : f.arity = 1
  · rw [if_pos h1] at h
    exact hf.2 v i b h
  · rw [if_neg h1] at h
    by_cases h0 : f.arity = 0
    · rw [if_pos h0] at h
      exact hf.1 i b h
    · rw [if_neg h0] at h
      exact Except.noConfusion h

theorem mapOkStep_preserves_inv {f : PyFun} {v : Value} {s : Res}
    (hf : f.resOutputsInv) (h : mapOkStep f v = .ok s) : s.inv := by
  unfold mapOkStep at h
  cases hd : f.dispatch v with
  | error e => rw [hd] at h; exact Except.noConfusion h
  | ok out =>
    rw [hd] at h
    cases out with
    | vres i b =>
      simp only [Except.ok.injEq] at h
      subst h
      exact PyFun.dispatch_resInv hf hd
    | vint n => exact Res.Ok_success_inv h
    | vstr sv => exact Res.Ok_success_inv h
    | vnone => exact Res.Ok_success_inv h
    | vexc e => exact Res.Ok_success_inv h
    | vlist l => exact Res.Ok_success_inv h
    | vtup l => exact Res.Ok_success_inv h
    | vset l => exact Res.Ok_success_inv h

theorem mapAltStep_preserves_inv {g : PyFun} {v : Value} {s : Res}
    (hg : g.resOutputsInv) (h : mapAltStep g v = .ok s) : s.inv := by
  unfold mapAltStep at h
  cases hd : g.dispatch v with
  | error e => rw [hd] at h; exact Except.noConfusion h
  | ok out =>
    rw [hd] at h
    cases out with
    | vres i b =>
      simp only [Except.ok.injEq] at h
      subst h
      exact PyFun.dispatch_resInv hg hd
    | vint n => exact Res.Err_success_inv h
    | vstr sv => exact Res.Err_success_inv h
    | vnone => exact Res.Err_success_inv h
    | vexc e => exact Res.Err_success_inv h
    | vlist l => exact Res.Err_success_inv h
    | vtup l => exact Res.Err_success_inv h
    | vset l => exact Res.Err_success_inv h

theorem Res.map_preserves_inv {r : Res} {f : PyFun} {s : Res}
    (hf : f.resOutputsInv) (h : r.map f = .ok s) : s.inv := by
  unfold Res.map at h
  cases hi : r.iter with
  | nil => rw [hi] at h; exact Res.Err_success_inv h
  | cons a rest =>
    rw [hi] at h
    exact mapOkStep_preserves_inv hf h

theorem Res.map_alt_preserves_inv {r : Res} {g : PyFun} {s : Res}
    (hg : g.resOutputsInv) (h : r.map_alt g = .ok s) : s.inv := by
  unfold Res.map_alt at h
  cases ht : r._is_ok with
  | true =>
    rw [ht] at h
    simp only [Bool.not_true, Bool.false_eq_true, if_false] at h
    exact Res.Ok_success_inv h
  | false =>
    rw [ht] at h
    simp only [Bool.not_false, if_true] at h
    exact mapAltStep_preserves_inv hg h

theorem PyFun.dispatch_total {f : PyFun} {v : Value} {P : Value → Prop}
    (hf : f.total P) : ∃ u, f.dispatch v = .ok u ∧ P u := by
  obtain ⟨har, ⟨u0, hu0, hp0⟩, h1⟩ := hf
  unfold PyFun.dispatch
  by_cases ha1 : f.arity = 1
  · rw [if_pos ha1]
    exact h1 v
  · rw [if_neg ha1]
    have ha0 : f.arity = 0 := by omega
    rw [if_pos ha0]
    exact ⟨u0, hu0, hp0⟩

theorem mapOkStep_total {f : PyFun} {v : Value}
    (hf : f.total okResult) : ∃ s, mapOkStep f v = .ok s := by
  obtain ⟨u, hu, hp⟩ := PyFun.dispatch_total (v := v) hf
  unfold mapOkStep
  rw [hu]
  cases u with
  | vres i b => exact ⟨⟨i, b⟩, rfl⟩
  | vexc e => exact absurd hp (by simp [okResult])
  | vint n => exact ⟨⟨.vint n, true⟩, Res.Ok_not_exc rfl⟩
  | vstr sv => exact ⟨⟨.vstr sv, true⟩, Res.Ok_not_exc rfl⟩
  | vnone => exact ⟨⟨.vnone, true⟩, Res.Ok_not_exc rfl⟩
  | vlist l => exact ⟨⟨.vlist l, true⟩, Res.Ok_not_exc rfl⟩
  | vtup l => exact ⟨⟨.vtup l, true⟩, Res.Ok_not_exc rfl⟩
  | vset l => exact ⟨⟨.vset l, true⟩, Res.Ok_not_exc rfl⟩

theorem mapAltStep_total {g : PyFun} {v : Value}
    (hg : g.total errResult) : ∃ s, mapAltStep g v = .ok s := by
  obtain ⟨u, hu, hp⟩ := PyFun.dispatch_total (v := v) hg
  unfold mapAltStep
  rw [hu]
  cases u with
  | vres i b => exact ⟨⟨i, b⟩, rfl⟩
  | vexc e => exact ⟨⟨.vexc e, false⟩, Res.Err_exc rfl⟩
  | vint n => exact absurd hp (by simp [errResult])
  | vstr sv => exact absurd hp (by simp [errResult])
  | vnone => exact absurd hp (by simp [errResult])
  | vlist l => exact absurd hp (by simp [errResult])
  | vtup l => exact absurd hp (by simp [errResult])
  | vset l => exact absurd hp (by simp [errResult])

theorem Res.map_total {r : Res} {f : PyFun} (hinv : r.inv)
    (hiter : r._is_ok = true → r.iter ≠ []) (hf : f.total okResult) :
    ∃ s, r.map f = .ok s := by
  unfold Res.map
  cases hi : r.iter with
  | cons a rest => exact mapOkStep_total hf
  | nil =>
    cases ht : r._is_ok with
    | true => exact absurd hi (hiter ht)
    | false =>
      have hexc : r.inner.isExc = true := by
        rw [Res.inv, ht] at hinv
        simpa using hinv
      exact ⟨⟨r.inner, false⟩, Res.Err_exc hexc⟩

/-! ### Claim theorems -/

/-- Claim C2: for every non-error value `v` and Exception `ex`,
`Ok(v).unwrap()` returns `v`, `Err(ex).unwrap()` raises exactly the payload
`ex` itself, `Err(ex).unwrap_alt()`/`unwrap_err` return the payload, and
`Ok(v).unwrap_alt()`/`unwrap_err` raise `UnwrapError` with the message
"Unwrapped Err while in Ok state". -/
theorem c2_unwrap_extraction (v : Value) (ex : Exc) (hv : v.isExc = false) :
    (∃ r : Res, Res.Ok v = .ok r ∧ r.unwrap = .ok v ∧
      r.unwrap_alt = .error ⟨.unwrapError, "Unwrapped Err while in Ok state"⟩ ∧
      unwrap_err r = .error ⟨.unwrapError, "Unwrapped Err while in Ok state"⟩) ∧
    (∃ s : Res, Res.Err (.vexc ex) = .ok s ∧ s.unwrap = .error ex ∧
      s.unwrap_alt = .ok (.vexc ex) ∧ unwrap_err s = .ok (.vexc ex)) := by
  refine ⟨⟨⟨v, true⟩, Res.Ok_not_exc hv, ?_, rfl, rfl⟩,
    ⟨⟨.vexc ex, false⟩, Res.Err_exc rfl, rfl, rfl, rfl⟩⟩
  simp [Res.unwrap, hv]

/-- Witness for C2 at `v = 10`, `ex = Exception("foo")`. -/
theorem c2_unwrap_extraction_witness :
    (∃ r : Res, Res.Ok (.vint 10) = .ok r ∧ r.unwrap = .ok (.vint 10) ∧
      r.unwrap_alt = .error ⟨.unwrapError, "Unwrapped Err while in Ok state"⟩ ∧
      unwrap_err r = .error ⟨.unwrapError, "Unwrapped Err while in Ok state"⟩) ∧
    (∃ s : Res, Res.Err (.vexc ⟨.exceptionBase, "foo"⟩) = .ok s ∧
      s.unwrap = .error ⟨.exceptionBase, "foo"⟩ ∧
      s.unwrap_alt = .ok (.vexc ⟨.exceptionBase, "foo"⟩) ∧
      unwrap_err s = .ok (.vexc ⟨.exceptionBase, "foo"⟩)) :=
  c2_unwrap_extraction (.vint 10) ⟨.exceptionBase, "foo"⟩ rfl

/-- Claim C7: iterating an ok-tagged `Res` holding a list, tuple or set
yields exactly its elements; any other (scalar) ok payload yields itself
once; an err-tagged `Res` (holding an Exception) yields nothing. -/
theorem c7_iteration (elems : List Value) (sc : Value) (ex : Exc)
    (hsc : sc.isScalarPayload = true) :
    Res.iter ⟨.vlist elems, true⟩ = elems ∧
    Res.iter ⟨.vtup elems, true⟩ = elems ∧
    Res.iter ⟨.vset elems, true⟩ = elems ∧
    Res.iter ⟨sc, true⟩ = [sc] ∧
    Res.iter ⟨.vexc ex, false⟩ = [] :=
  ⟨rfl, rfl, rfl, Res.iter_scalar hsc, rfl⟩

/-- Witness for C7 at `[1, 2, 3]`, scalar `5` and `Exception("foo")`. -/
theorem c7_iteration_witness :
    Res.iter ⟨.vlist [.vint 1, .vint 2, .vint 3], true⟩ = [.vint 1, .vint 2, .vint 3] ∧
    Res.iter ⟨.vint 5, true⟩ = [.vint 5] ∧
    Res.iter ⟨.vexc ⟨.exceptionBase, "foo"⟩, false⟩ = [] := by
  have h := c7_iteration [.vint 1, .vint 2, .vint 3] (.vint 5) ⟨.exceptionBase, "foo"⟩ rfl
  exact ⟨h.1, h.2.2.2.1, h.2.2.2.2⟩

/-- Claim C10: `Res.Some` of an Exception instance (which is never `None`)
delegates to `Res.Ok`, which rejects it with `TypeError` instead of
producing a success. -/
theorem c10_some_rejects_exceptions (ex : Exc) :
    Res.Some (.vexc ex) = .error ⟨.typeError, "Cannot pass an Exception child to Ok"⟩ ∧
    ∀ r : Res, Res.Some (.vexc ex) ≠ .ok r := by
  refine ⟨rfl, fun r h => ?_⟩
  exact Except.noConfusion
    (show (Except.error (⟨.typeError, "Cannot pass an Exception child to Ok"⟩ : Exc) :
      Except Exc Res) = .ok r from h)

/-- Claim C5 (code bug evidence): at the inputs of
`test_result.TestDunderMethods` (`Ok(10)` against `Err(Exception("foo"))`),
all four ordering operators raise `TypeError` instead of the `False` the
claim and the repository's own tests assert: the `choices.py` dataclass
ordering answers `NotImplemented` across the distinct `Ok`/`Err` classes, and
`internals/res.py`'s `Res` defines no ordering at all.  Same-class
comparisons do delegate to the payloads (`Ok(9) < Ok(10)` is `True`). -/
theorem c5_opposite_tag_ordering_raises :
    Choice.lt ⟨.okC, .vint 10⟩ ⟨.errC, .vexc ⟨.exceptionBase, "foo"⟩⟩ = .error clsMismatch ∧
    Choice.le ⟨.okC, .vint 10⟩ ⟨.errC, .vexc ⟨.exceptionBase, "foo"⟩⟩ = .error clsMismatch ∧
    Choice.gt ⟨.okC, .vint 10⟩ ⟨.errC, .vexc ⟨.exceptionBase, "foo"⟩⟩ = .error clsMismatch ∧
    Choice.ge ⟨.okC, .vint 10⟩ ⟨.errC, .vexc ⟨.exceptionBase, "foo"⟩⟩ = .error clsMismatch ∧
    (∀ b : Bool, Choice.lt ⟨.okC, .vint 10⟩ ⟨.errC, .vexc ⟨.exceptionBase, "foo"⟩⟩ ≠ .ok b) ∧
    Choice.lt ⟨.okC, .vint 9⟩ ⟨.okC, .vint 10⟩ = .ok true ∧
    Res.lt ⟨.vint 10, true⟩ ⟨.vexc ⟨.exceptionBase, "foo"⟩, false⟩ =
      .error ⟨.typeError, "ordering not supported between instances of Res"⟩ := by
  refine ⟨rfl, rfl, rfl, rfl, fun b h => ?_, rfl, rfl⟩
  exact Except.noConfusion (show (Except.error clsMismatch : Except Exc Bool) = .ok b from h)

/-- Claim C6 (code bug evidence): `choice_experiment.Res.and_then` on an
err-tagged value evaluates `Res.Err(self.inner)` with the required
`other_type` argument missing, raising `TypeError` instead of returning the
same Failure — contradicting its own docstring and the sibling
`choices.py` implementation, for which the claim holds: `Err.and_then` never
invokes its function and keeps the payload, and `Ok.or_else` (both drafts)
never invokes its function and keeps the payload. -/
theorem c6_and_then_raises_missing_argument :
    CERes.and_then ⟨.vexc ⟨.valueError, "boom"⟩, true⟩ (fun v => .ok ⟨v, false⟩) =
      .error ⟨.typeError, "Err() missing 1 required positional argument: other_type"⟩ ∧
    (∀ f : Value → Except Exc CERes, CERes.and_then ⟨.vexc ⟨.valueError, "boom"⟩, true⟩ f =
      .error ⟨.typeError, "Err() missing 1 required positional argument: other_type"⟩) ∧
    (∀ g : Value → Except Exc Choice, Choice.and_then ⟨.errC, .vexc ⟨.valueError, "boom"⟩⟩ g =
      .ok ⟨.errC, .vexc ⟨.valueError, "boom"⟩⟩) ∧
    (∀ h : Value → Except Exc Choice, Choice.or_else ⟨.okC, .vint 5⟩ h = .ok ⟨.okC, .vint 5⟩) ∧
    (∀ k : Value → Except Exc CERes, CERes.or_else ⟨.vint 5, false⟩ k = .ok ⟨.vint 5, false⟩) :=
  ⟨rfl, fun _ => rfl, fun _ => rfl, fun _ => rfl, fun _ => rfl⟩

/-- Claim C4 counterexample: for the non-error list payload `[1, 2]` and a
mapper returning a `Res`, `Ok([1, 2]).map(f)` is not `f([1, 2])` — the
`for ok in self:` loop hands the mapper the first element, producing
`Ok(1)`, while `f([1, 2])` is `Ok([1, 2])`. -/
theorem c4_map_not_flattening_on_list :
    Res.Ok (.vlist [.vint 1, .vint 2]) = .ok ⟨.vlist [.vint 1, .vint 2], true⟩ ∧
    (⟨1, .ok .vnone, fun v => .ok (.vres v true)⟩ : PyFun).call1 (.vlist [.vint 1, .vint 2]) =
      .ok (.vres (.vlist [.vint 1, .vint 2]) true) ∧
    Res.map ⟨.vlist [.vint 1, .vint 2], true⟩ ⟨1, .ok .vnone, fun v => .ok (.vres v true)⟩ =
      .ok ⟨.vint 1, true⟩ ∧
    (Except.ok (⟨.vint 1, true⟩ : Res) : Except Exc Res) ≠
      .ok ⟨.vlist [.vint 1, .vint 2], true⟩ := by
  refine ⟨rfl, rfl, rfl, fun h => ?_⟩
  simp at h

/-- Claim C4 (amended): restricted to scalar payloads (not a list, tuple or
set), `Ok(v).map(f)` with a one-parameter mapper is `f(v)` exactly when the
mapper returns a `Res`, and is `Ok(u)` when it returns a plain non-`Res`,
non-Exception value `u`. -/
theorem c4_map_flattening_on_scalar (v : Value) (f : PyFun)
    (hv : v.isExc = false) (hs : v.isScalarPayload = true) (ha : f.arity = 1) :
    Res.Ok v = .ok ⟨v, true⟩ ∧
    (∀ i b, f.call1 v = .ok (.vres i b) → Res.map ⟨v, true⟩ f = .ok ⟨i, b⟩) ∧
    (∀ u, f.call1 v = .ok u → (∀ i b, u ≠ .vres i b) → u.isExc = false →
      Res.map ⟨v, true⟩ f = .ok ⟨u, true⟩) := by
  have hm : Res.map ⟨v, true⟩ f = mapOkStep f v := by
    unfold Res.map
    rw [Res.iter_scalar hs]
  have hd : f.dispatch v = f.call1 v := by
    unfold PyFun.dispatch
    rw [if_pos ha]
  refine ⟨Res.Ok_not_exc hv, fun i b hc => ?_, fun u hc hnres hexc => ?_⟩
  · rw [hm]
    unfold mapOkStep
    rw [hd, hc]
  · rw [hm]
    unfold mapOkStep
    rw [hd, hc]
    cases u with
    | vres i b => exact absurd rfl (hnres i b)
    | vint n => exact Res.Ok_not_exc hexc
    | vstr sv => exact Res.Ok_not_exc hexc
    | vnone => exact Res.Ok_not_exc hexc
    | vexc e => exact Res.Ok_not_exc hexc
    | vlist l => exact Res.Ok_not_exc hexc
    | vtup l => exact Res.Ok_not_exc hexc
    | vset l => exact Res.Ok_not_exc hexc

/-- Witness for amended C4 at `v = 3` with a `Res`-returning mapper. -/
theorem c4_map_flattening_on_scalar_witness :
    Res.map ⟨.vint 3, true⟩ ⟨1, .ok .vnone, fun x => .ok (.vres x true)⟩ =
      .ok ⟨.vint 3, true⟩ :=
  (c4_map_flattening_on_scalar (.vint 3) ⟨1, .ok .vnone, fun x => .ok (.vres x true)⟩
    rfl rfl rfl).2.1 (.vint 3) true rfl

/-- Claim C8 counterexample: when the wrapped function returns an Exception
instance as its value, the wrapper does not produce `Success(u)` — the
`Res.Ok` constructed inside the `try` block raises `TypeError`, which here
escapes because `TypeError` matches no listed class. -/
theorem c8_safe_fails_on_exception_return :
    safe [ExcType.keyError] (fun _ : Unit => .ok (.vexc ⟨.exceptionBase, "boom"⟩)) () =
      .error ⟨.typeError, "Cannot pass an Exception child to Ok"⟩ ∧
    safe [ExcType.keyError] (fun _ : Unit => .ok (.vexc ⟨.exceptionBase, "boom"⟩)) () ≠
      .ok ⟨.vexc ⟨.exceptionBase, "boom"⟩, true⟩ := by
  refine ⟨rfl, fun h => ?_⟩
  exact Except.noConfusion
    (show (Except.error (⟨.typeError, "Cannot pass an Exception child to Ok"⟩ : Exc) :
      Except Exc Res) = .ok ⟨.vexc ⟨.exceptionBase, "boom"⟩, true⟩ from h)

/-- Claim C8 (amended): a `safe(*err_type)`-wrapped call returns
`Success(u)` when the function returns a non-Exception value `u`; returns
`Failure` wrapping exactly the raised exception when the function raises an
instance of a listed class; and lets any other raised exception propagate. -/
theorem safeTryBody_ok {α : Type} {g : α → Except Exc Value} {a : α} {u : Value}
    (hu : g a = .ok u) : safeTryBody g a = Res.Ok u := by
  unfold safeTryBody
  rw [hu]

theorem safeTryBody_err {α : Type} {g : α → Except Exc Value} {a : α} {e : Exc}
    (he : g a = .error e) : safeTryBody g a = .error e := by
  unfold safeTryBody
  rw [he]

theorem c8_safe_behaviour {α : Type} (ts : List ExcType) (g : α → Except Exc Value) (a : α) :
    (∀ u, g a = .ok u → u.isExc = false → safe ts g a = .ok ⟨u, true⟩) ∧
    (∀ e, g a = .error e → ts.any (fun t => e.isInstance t) = true →
      safe ts g a = .ok ⟨.vexc e, false⟩) ∧
    (∀ e, g a = .error e → ts.any (fun t => e.isInstance t) = false →
      safe ts g a = .error e) := by
  refine ⟨fun u hu hexc => ?_, fun e he hl => ?_, fun e he hl => ?_⟩
  · unfold safe
    rw [safeTryBody_ok hu, Res.Ok_not_exc hexc]
  · unfold safe
    rw [safeTryBody_err he]
    show (if (ts.any fun t => e.isInstance t) = true then Res.Err (Value.vexc e)
      else Except.error e) = Except.ok ⟨.vexc e, false⟩
    rw [if_pos hl]
    exact Res.Err_exc rfl
  · unfold safe
    rw [safeTryBody_err he]
    show (if (ts.any fun t => e.isInstance t) = true then Res.Err (Value.vexc e)
      else Except.error e) = Except.error e
    rw [if_neg]
    rw [hl]
    exact Bool.false_ne_true

/-- Witness for amended C8: `safe(KeyError)` around a raising lookup at a
missing key returns the Failure wrapping that `KeyError`. -/
theorem c8_safe_behaviour_witness :
    safe [ExcType.keyError] (fun _ : Unit => .error ⟨.keyError, "hola"⟩) () =
      .ok ⟨.vexc ⟨.keyError, "hola"⟩, false⟩ :=
  (c8_safe_behaviour [ExcType.keyError] (fun _ : Unit => .error ⟨.keyError, "hola"⟩) ()).2.1
    ⟨.keyError, "hola"⟩ rfl rfl

/-- Claim C9: for every invariant-respecting `Res` whose payload is not
`None`, `from_dict(to_dict(r))` rebuilds `r` (same tag, same payload); and
`from_dict` raises `Nil` whenever the slot selected by `is_ok` holds
`None`. -/
theorem c9_dict_roundtrip (r : Res) (d : ResDict) (hinv : r.inv) (hn : r.inner ≠ .vnone) :
    Res.from_dict r.to_dict = .ok r ∧
    (d.is_ok = true → d.ok = .vnone →
      Res.from_dict d = .error ⟨.nilError, "Found None while expecting something"⟩) ∧
    (d.is_ok = false → d.err = .vnone →
      Res.from_dict d = .error ⟨.nilError, "Found None while expecting something"⟩) := by
  obtain ⟨dok, derr, disok⟩ := d
  refine ⟨?_, fun h1 h2 => ?_, fun h1 h2 => ?_⟩
  · obtain ⟨inner, tag⟩ := r
    unfold Res.inv at hinv
    cases tag with
    | false =>
      simp only [Bool.not_false] at hinv
      obtain ⟨e, he⟩ := Value.exists_exc_of_isExc hinv
      subst he
      rfl
    | true =>
      simp only [Bool.not_true] at hinv
      cases inner with
      | vnone => exact absurd rfl hn
      | vexc e => simp [Value.isExc] at hinv
      | vint n => rfl
      | vstr s => rfl
      | vlist l => rfl
      | vtup l => rfl
      | vset l => rfl
      | vres i b => rfl
  · subst h1
    subst h2
    rfl
  · subst h1
    subst h2
    rfl

/-- Witness for C9 at `Ok(10)` and a dictionary whose populated slot is
`None`. -/
theorem c9_dict_roundtrip_witness :
    Res.from_dict (Res.to_dict ⟨.vint 10, true⟩) = .ok ⟨.vint 10, true⟩ ∧
    Res.from_dict ⟨.vnone, .vnone, true⟩ =
      .error ⟨.nilError, "Found None while expecting something"⟩ := by
  have h := c9_dict_roundtrip ⟨.vint 10, true⟩ ⟨.vnone, .vnone, true⟩ rfl (by simp)
  exact ⟨h.1, h.2.1 rfl rfl⟩

/-- Claim C3: the constructors enforce the tag/payload invariant with
`TypeError` at construction time, and every combinator preserves it
(`map`/`map_alt` under the proviso that a mapper-returned `Res` satisfies it
itself, since such a value is passed through unvalidated). -/
theorem c3_invariant_enforced :
    (∀ v : Value, v.isExc = true →
      Res.Ok v = .error ⟨.typeError, "Cannot pass an Exception child to Ok"⟩) ∧
    (∀ v : Value, v.isExc = false → Res.Ok v = .ok ⟨v, true⟩ ∧ Res.inv ⟨v, true⟩) ∧
    (∀ v : Value, v.isExc = false →
      Res.Err v = .error ⟨.typeError, "Expected subclass of Exception but found " ++ v.pyStr⟩) ∧
    (∀ v : Value, v.isExc = true → Res.Err v = .ok ⟨v, false⟩ ∧ Res.inv ⟨v, false⟩) ∧
    (∀ (r : Res) (f : PyFun) (s : Res), f.resOutputsInv → r.map f = .ok s → s.inv) ∧
    (∀ (r : Res) (g : PyFun) (s : Res), g.resOutputsInv → r.map_alt g = .ok s → s.inv) ∧
    (∀ (r : Res) (t : ExcType) (s : Res), r.convert_err t = .ok s → s.inv) ∧
    (∀ (r : Res) (f : PyFun) (s : Res), r.inv → r.do_ f = .ok s → s.inv) ∧
    (∀ (r : Res) (f : PyFun) (s : Res), r.do_err f = .ok s → s.inv) := by
  refine ⟨fun v hv => by simp [Res.Ok, hv],
    fun v hv => ⟨Res.Ok_not_exc hv, by simp [Res.inv, hv]⟩,
    fun v hv => by simp [Res.Err, hv],
    fun v hv => ⟨Res.Err_exc hv, by simp [Res.inv, hv]⟩,
    fun r f s hf h => Res.map_preserves_inv hf h,
    fun r g s hg h => Res.map_alt_preserves_inv hg h,
    fun r t s h => ?_, fun r f s hr h => ?_, fun r f s h => ?_⟩
  · unfold Res.convert_err at h
    cases ht : r._is_ok with
    | false =>
      rw [ht] at h
      simp only [Bool.not_false, if_true] at h
      exact Res.Err_success_inv h
    | true =>
      rw [ht] at h
      simp only [Bool.not_true, Bool.false_eq_true, if_false] at h
      exact Res.Ok_success_inv h
  · unfold Res.do_ at h
    cases hm : r.map f with
    | error e => rw [hm] at h; exact Except.noConfusion h
    | ok x =>
      rw [hm] at h
      simp only [Except.ok.injEq] at h
      rw [← h]
      exact hr
  · unfold Res.do_err at h
    cases ht : r._is_ok with
    | false =>
      rw [ht] at h
      simp only [Bool.not_false, if_true] at h
      exact Res.Err_success_inv h
    | true =>
      rw [ht] at h
      simp only [Bool.not_true, Bool.false_eq_true, if_false] at h
      exact Res.Ok_success_inv h

/-- Witness for C3: constructor rejection, construction, and `map`
preservation at concrete inputs. -/
theorem c3_invariant_enforced_witness :
    Res.Ok (.vexc ⟨.exceptionBase, "e"⟩) =
      .error ⟨.typeError, "Cannot pass an Exception child to Ok"⟩ ∧
    (Res.Ok (.vint 10) = .ok ⟨.vint 10, true⟩ ∧ Res.inv ⟨.vint 10, true⟩) ∧
    (Res.Err (.vexc ⟨.exceptionBase, "e"⟩) = .ok ⟨.vexc ⟨.exceptionBase, "e"⟩, false⟩ ∧
      Res.inv ⟨.vexc ⟨.exceptionBase, "e"⟩, false⟩) ∧
    Res.inv ⟨.vint 0, true⟩ := by
  have h := c3_invariant_enforced
  refine ⟨h.1 _ rfl, h.2.1 _ rfl, h.2.2.2.1 _ rfl, ?_⟩
  exact h.2.2.2.2.1 ⟨.vint 1, true⟩ ⟨1, .ok (.vint 0), fun _ => .ok (.vint 0)⟩ ⟨.vint 0, true⟩
    ⟨fun i b hh => Value.noConfusion (Except.ok.inj hh),
      fun v i b hh => Value.noConfusion (Except.ok.inj hh)⟩ rfl

theorem Res.inv_ok_inner {r : Res} (hinv : r.inv) (ht : r._is_ok = true) :
    r.inner.isExc = false := by
  unfold Res.inv at hinv
  rw [ht] at hinv
  simpa using hinv

theorem Res.inv_err_inner {r : Res} (hinv : r.inv) (ht : r._is_ok = false) :
    r.inner.isExc = true := by
  unfold Res.inv at hinv
  rw [ht] at hinv
  simpa using hinv

/-- Claim C1 counterexample: `Ok([])` is a reachable `Res`, yet `map` on it
raises `TypeError` without ever calling the mapper — the `for ok in self:`
loop body never runs on the empty list, and the fall-through re-wraps the
list payload with the validating `Res.Err`. -/
theorem c1_map_raises_on_empty_list_payload :
    Res.Ok (.vlist []) = .ok ⟨.vlist [], true⟩ ∧
    Res.map ⟨.vlist [], true⟩ ⟨1, .ok .vnone, fun v => .ok v⟩ =
      .error ⟨.typeError, "Expected subclass of Exception but found []"⟩ :=
  ⟨rfl, rfl⟩

/-- Claim C1 (amended): provided the supplied functions take at most one
parameter and their calls return normally with values respecting the
constructors' invariants, and — on the ok side of `map`/`do` — the payload
iterates to at least one element, the combinators `map`, `map_alt`,
`convert_err`, `do`, `do_err` of an invariant-respecting `Res` never raise
(`do_err` never raises for any function at all); among the extraction
methods, `unwrap` on a Failure raises exactly the payload, `unwrap_alt` on a
Success raises `UnwrapError` with its documented message, and
`expect`/`expect_err` raise `ExpectError` carrying the given message on the
wrong tag. -/
theorem c1_combinators_never_raise (r : Res) (f g h : PyFun) (t : ExcType) (m : String)
    (hinv : r.inv) (hiter : r._is_ok = true → r.iter ≠ [])
    (hf : f.total okResult) (hg : g.total errResult) :
    (∃ s, r.map f = .ok s) ∧
    (∃ s, r.map_alt g = .ok s) ∧
    (∃ s, r.convert_err t = .ok s) ∧
    r.do_ f = .ok r ∧
    (∃ s, r.do_err h = .ok s) ∧
    (r._is_ok = false →
      (∃ ex, r.inner = .vexc ex ∧ r.unwrap = .error ex) ∧
      r.expect m = .error ⟨.expectError, m⟩) ∧
    (r._is_ok = true →
      r.unwrap_alt = .error ⟨.unwrapError, "Unwrapped Err while in Ok state"⟩ ∧
      r.expect_err m = .error ⟨.expectError, m⟩) := by
  have hmap := Res.map_total hinv hiter hf
  refine ⟨hmap, ?_, ?_, ?_, ?_, fun ht => ?_, fun ht => ?_⟩
  · cases ht : r._is_ok with
    | true =>
      refine ⟨⟨r.inner, true⟩, ?_⟩
      unfold Res.map_alt
      rw [ht]
      simp only [Bool.not_true, Bool.false_eq_true, if_false]
      exact Res.Ok_not_exc (Res.inv_ok_inner hinv ht)
    | false =>
      obtain ⟨s, hs⟩ := mapAltStep_total (v := r.inner) hg
      refine ⟨s, ?_⟩
      unfold Res.map_alt
      rw [ht]
      simpa using hs
  · cases ht : r._is_ok with
    | false =>
      refine ⟨⟨.vexc ⟨t, r.inner.pyStr⟩, false⟩, ?_⟩
      unfold Res.convert_err
      rw [ht]
      simp only [Bool.not_false, if_true]
      exact Res.Err_exc rfl
    | true =>
      refine ⟨⟨r.inner, true⟩, ?_⟩
      unfold Res.convert_err
      rw [ht]
      simp only [Bool.not_true, Bool.false_eq_true, if_false]
      exact Res.Ok_not_exc (Res.inv_ok_inner hinv ht)
  · obtain ⟨s, hs⟩ := hmap
    unfold Res.do_
    rw [hs]
  · cases ht : r._is_ok with
    | false =>
      refine ⟨⟨r.inner, false⟩, ?_⟩
      unfold Res.do_err
      rw [ht]
      simp only [Bool.not_false, if_true]
      exact Res.Err_exc (Res.inv_err_inner hinv ht)
    | true =>
      refine ⟨⟨r.inner, true⟩, ?_⟩
      unfold Res.do_err
      rw [ht]
      simp only [Bool.not_true, Bool.false_eq_true, if_false]
      exact Res.Ok_not_exc (Res.inv_ok_inner hinv ht)
  · obtain ⟨ex, hex⟩ := Value.exists_exc_of_isExc (Res.inv_err_inner hinv ht)
    refine ⟨⟨ex, hex, ?_⟩, ?_⟩
    · unfold Res.unwrap
      rw [ht, hex]
      rfl
    · unfold Res.expect
      rw [ht]
      rfl
  · constructor
    · unfold Res.unwrap_alt
      rw [ht]
      rfl
    · unfold Res.expect_err
      rw [ht]
      rfl

/-- Witness for amended C1 at `Ok(10)` with well-behaved mappers. -/
theorem c1_combinators_never_raise_witness :
    (∃ s, Res.map ⟨.vint 10, true⟩ ⟨1, .ok (.vint 7), fun _ => .ok (.vint 7)⟩ = .ok s) ∧
    (∃ s, Res.map_alt ⟨.vint 10, true⟩
      ⟨1, .ok (.vexc ⟨.valueError, "v"⟩), fun _ => .ok (.vexc ⟨.valueError, "v"⟩)⟩ = .ok s) ∧
    Res.unwrap_alt ⟨.vint 10, true⟩ =
      .error ⟨.unwrapError, "Unwrapped Err while in Ok state"⟩ := by
  have h := c1_combinators_never_raise ⟨.vint 10, true⟩
    ⟨1, .ok (.vint 7), fun _ => .ok (.vint 7)⟩
    ⟨1, .ok (.vexc ⟨.valueError, "v"⟩), fun _ => .ok (.vexc ⟨.valueError, "v"⟩)⟩
    ⟨0, .ok .vnone, fun _ => .ok .vnone⟩ .valueError "m" rfl
    (fun _ => by simp [Res.iter])
    ⟨by decide, ⟨.vint 7, rfl, trivial⟩, fun v => ⟨.vint 7, rfl, trivial⟩⟩
    ⟨by decide, ⟨.vexc ⟨.valueError, "v"⟩, rfl, trivial⟩,
      fun v => ⟨.vexc ⟨.valueError, "v"⟩, rfl, trivial⟩⟩
  exact ⟨h.1, h.2.1, (h.2.2.2.2.2.2 rfl).1⟩

end Pythonix
